import Mathlib

/-!
Shallow embedding of `src/windows/flutter_shopscript_plugin.cpp`
(namespace `flutter_shopscript`), a Flutter Windows plugin stub.

The plugin consists of:
  * `RegisterWithRegistrar`: creates a method channel named
    `"flutter_shopscript"`, creates a plugin instance, binds the channel
    handler to `HandleMethodCall`, and hands the plugin to the registrar;
  * an empty constructor and an empty destructor;
  * `HandleMethodCall`: if `method_call.method_name().compare("getPlatformVersion") == 0`
    it answers `Success(EncodableValue("Windows "))`, built through an
    `ostringstream` that receives the single insertion `<< "Windows "`;
    otherwise it answers `NotImplemented()`.
-/

namespace FlutterShopscript

/-- Model of `flutter::EncodableValue`, the untyped payload type of the
standard method codec.  Only the constructors relevant to this plugin are
listed; `stringVal` is the one the code produces. -/
inductive EncodableValue where
  | null : EncodableValue
  | boolVal (b : Bool) : EncodableValue
  | intVal (i : Int) : EncodableValue
  | stringVal (s : String) : EncodableValue
  deriving DecidableEq, Repr

/-- Model of `flutter::MethodCall<EncodableValue>`: a method name and an
optional argument payload (the code never reads the arguments). -/
structure MethodCall where
  method_name : String
  arguments : Option EncodableValue
  deriving DecidableEq, Repr

/-- Model of the observable outcome delivered through
`flutter::MethodResult<EncodableValue>`: the handler either calls
`result->Success(v)` or `result->NotImplemented()`. -/
inductive MethodResult where
  | Success (value : EncodableValue) : MethodResult
  | NotImplemented : MethodResult
  deriving DecidableEq, Repr

/-- Three-way lexicographic comparison of character sequences, the
semantics of `std::char_traits<char>::compare` extended to the full
strings as `std::string::compare` does (shorter string orders first when
one is a prefix of the other).  Only the sign of the result is
observable. -/
def cppCompareChars : List Char → List Char → Int
  | [], [] => 0
  | [], _ :: _ => -1
  | _ :: _, [] => 1
  | a :: as, b :: bs =>
      if a < b then -1
      else if b < a then 1
      else cppCompareChars as bs

/-- Model of `std::string::compare` on the two strings. -/
def cppCompare (s t : String) : Int :=
  cppCompareChars s.data t.data

/-- The state of a `FlutterShopScriptPlugin` instance.  The class declares
no data members, so the state carries no fields. -/
structure PluginState where
  deriving DecidableEq, Repr

/-- Model of `FlutterShopScriptPlugin::FlutterShopScriptPlugin()`.  The
constructor body is empty: it produces a fresh (field-less) instance and
leaves the ambient program state `σ` untouched. -/
def FlutterShopScriptPlugin.construct {α : Type} (σ : α) : α × PluginState :=
  (σ, PluginState.mk)

/-- Model of `FlutterShopScriptPlugin::~FlutterShopScriptPlugin()`.  The
destructor body is empty: the ambient program state `σ` is returned
untouched. -/
def FlutterShopScriptPlugin.destruct {α : Type} (σ : α) (_p : PluginState) : α :=
  σ

/-- Model of the body of `std::ostringstream version_stream` after the
single insertion `version_stream << "Windows ";`: the accumulated string
is exactly `"Windows "`. -/
def version_stream_str : String :=
  "" ++ "Windows "

/-- Model of `FlutterShopScriptPlugin::HandleMethodCall`.  The dispatch
condition is the code's
`method_call.method_name().compare("getPlatformVersion") == 0`; on a match
the result is `Success(EncodableValue(version_stream.str()))`, otherwise
`NotImplemented()`. -/
def HandleMethodCall (method_call : MethodCall) : MethodResult :=
  if cppCompare method_call.method_name "getPlatformVersion" = 0 then
    MethodResult.Success (EncodableValue.stringVal version_stream_str)
  else
    MethodResult.NotImplemented

/-- Stateful view of `HandleMethodCall`: the member function receives the
instance state and returns the (unchanged, since the body reads and
writes no member) state together with the delivered result. -/
def HandleMethodCallSt (σ : PluginState) (method_call : MethodCall) :
    PluginState × MethodResult :=
  (σ, HandleMethodCall method_call)

/-- Model of the registrar: the channels registered so far (name paired
with the bound handler) and the plugins it owns. -/
structure RegistrarState where
  channels : List (String × (MethodCall → MethodResult))
  plugins : List PluginState

/-- Model of `FlutterShopScriptPlugin::RegisterWithRegistrar`: build a
channel named `"flutter_shopscript"`, construct a plugin, set the channel
handler to a lambda forwarding to the plugin's `HandleMethodCall`, and
add the plugin to the registrar. -/
def RegisterWithRegistrar (registrar : RegistrarState) : RegistrarState :=
  let plugin := PluginState.mk
  let handler := fun (call : MethodCall) => (HandleMethodCallSt plugin call).2
  { channels := ("flutter_shopscript", handler) :: registrar.channels,
    plugins := plugin :: registrar.plugins }

/-- Run a sequence of calls through the stateful handler, threading the
instance state and collecting the responses in order. -/
def runCalls (σ : PluginState) : List MethodCall → PluginState × List MethodResult
  | [] => (σ, [])
  | c :: cs =>
      let step := HandleMethodCallSt σ c
      let rest := runCalls step.1 cs
      (rest.1, step.2 :: rest.2)

/-- Response the handler gives to `c` when `c` arrives after the call
history `hist` has been processed, starting from the freshly constructed
instance. -/
def responseAfter (hist : List MethodCall) (c : MethodCall) : MethodResult :=
  (HandleMethodCallSt (runCalls PluginState.mk hist).1 c).2

/-- Dispatch condition exactly as the source writes it. -/
def dispatchCondition (s : String) : Prop :=
  cppCompare s "getPlatformVersion" = 0

/-- Dispatch condition as the spec words it: byte-exact string
equality with `"getPlatformVersion"`. -/
def dispatchConditionSpec (s : String) : Prop :=
  s = "getPlatformVersion"

instance (s : String) : Decidable (dispatchCondition s) := by
  unfold dispatchCondition; infer_instance

instance (s : String) : Decidable (dispatchConditionSpec s) := by
  unfold dispatchConditionSpec; infer_instance

/- ### Helper lemmas -/

/-- The three-way comparison returns `0` exactly on equal sequences. -/
theorem cppCompareChars_eq_zero_iff :
    ∀ (a b : List Char), cppCompareChars a b = 0 ↔ a = b
  | [], [] => by simp [cppCompareChars]
  | [], _ :: _ => by simp [cppCompareChars]
  | _ :: _, [] => by simp [cppCompareChars]
  | a :: as, b :: bs => by
      simp only [cppCompareChars]
      by_cases h1 : a < b
      · simp [h1, ne_of_lt h1]
      · by_cases h2 : b < a
        · simp [h1, h2, (lt_iff_le_and_ne.mp h2).2.symm]
        · have hab : a = b := le_antisymm (not_lt.mp h2) (not_lt.mp h1)
          simp [h1, h2, hab, cppCompareChars_eq_zero_iff as bs]

/-- Strings with the same underlying character list are equal. -/
theorem string_eq_of_data_eq {s t : String} (h : s.data = t.data) : s = t := by
  cases s; cases t; exact congrArg String.mk h

/-- `cppCompare` returns `0` exactly on equal strings. -/
theorem cppCompare_eq_zero_iff (s t : String) : cppCompare s t = 0 ↔ s = t := by
  unfold cppCompare
  rw [cppCompareChars_eq_zero_iff]
  exact ⟨string_eq_of_data_eq, fun h => by rw [h]⟩

/- ### Claims -/

/-- C1: for every incoming method call whose method name equals
`"getPlatformVersion"`, `HandleMethodCall` returns a success response
whose value is exactly the string `"Windows "` (trailing space, no
version suffix). -/
theorem C1_getPlatformVersion_success (call : MethodCall)
    (h : call.method_name = "getPlatformVersion") :
    HandleMethodCall call =
      MethodResult.Success (EncodableValue.stringVal "Windows ") := by
  unfold HandleMethodCall
  rw [if_pos ((cppCompare_eq_zero_iff _ _).mpr h)]
  rfl

/-- Witness for C1 at the concrete call `("getPlatformVersion", no args)`. -/
theorem C1_witness :
    HandleMethodCall ⟨"getPlatformVersion", none⟩ =
      MethodResult.Success (EncodableValue.stringVal "Windows ") :=
  C1_getPlatformVersion_success ⟨"getPlatformVersion", none⟩ rfl

/-- C2: for every incoming method call whose method name is not
`"getPlatformVersion"`, `HandleMethodCall` returns the not-implemented
response. -/
theorem C2_unknown_not_implemented (call : MethodCall)
    (h : call.method_name ≠ "getPlatformVersion") :
    HandleMethodCall call = MethodResult.NotImplemented := by
  unfold HandleMethodCall
  rw [if_neg (fun hc => h ((cppCompare_eq_zero_iff _ _).mp hc))]

/-- Witness for C2 at the concrete case-mismatched call
`("GetPlatformVersion", no args)`. -/
theorem C2_witness :
    HandleMethodCall ⟨"GetPlatformVersion", none⟩ =
      MethodResult.NotImplemented :=
  C2_unknown_not_implemented ⟨"GetPlatformVersion", none⟩ (by decide)

/-- C3: every incoming method call produces exactly one of exactly two
outcomes: the fixed success response, or the not-implemented response;
the two are mutually exclusive and no other outcome is reachable. -/
theorem C3_two_outcomes (call : MethodCall) :
    (HandleMethodCall call =
        MethodResult.Success (EncodableValue.stringVal "Windows ") ∧
      HandleMethodCall call ≠ MethodResult.NotImplemented) ∨
    (HandleMethodCall call = MethodResult.NotImplemented ∧
      ∀ v, HandleMethodCall call ≠ MethodResult.Success v) := by
  unfold HandleMethodCall
  by_cases h : cppCompare call.method_name "getPlatformVersion" = 0
  · exact Or.inl ⟨by rw [if_pos h]; rfl, by rw [if_pos h]; simp⟩
  · exact Or.inr ⟨by rw [if_neg h], fun v => by rw [if_neg h]; simp⟩

/-- C5: the response depends only on the method name: two calls that
share a method name but carry different argument payloads receive
identical responses. -/
theorem C5_arguments_irrelevant (name : String)
    (args₁ args₂ : Option EncodableValue) :
    HandleMethodCall ⟨name, args₁⟩ = HandleMethodCall ⟨name, args₂⟩ := by
  unfold HandleMethodCall
  rfl

/-- C4: registration binds the handler to a channel whose name is the
constant string `"flutter_shopscript"`: the registered channel list gains
exactly one entry, named `"flutter_shopscript"` and forwarding to
`HandleMethodCall`, and the previously registered channels are kept
unchanged. -/
theorem C4_channel_name (registrar : RegistrarState) :
    (RegisterWithRegistrar registrar).channels =
      ("flutter_shopscript",
        fun call => (HandleMethodCallSt PluginState.mk call).2) ::
        registrar.channels := by
  rfl

/-- C6: handling a call mutates no handler state: the instance state
after `HandleMethodCall` is exactly the instance state before it. -/
theorem C6_no_side_effects (σ : PluginState) (call : MethodCall) :
    (HandleMethodCallSt σ call).1 = σ := by
  rfl

/-- C7: `HandleMethodCall` terminates on every input: it is a total
function, so every call evaluates to some result. -/
theorem C7_total (call : MethodCall) :
    ∃ r : MethodResult, HandleMethodCall call = r :=
  ⟨HandleMethodCall call, rfl⟩

/-- C8: no per-call state is retained: the response to a call is the same
no matter which call history preceded it since the handler was
constructed. -/
theorem C8_history_independent (hist₁ hist₂ : List MethodCall)
    (c : MethodCall) :
    responseAfter hist₁ c = responseAfter hist₂ c := by
  unfold responseAfter HandleMethodCallSt
  rfl

/-- C9: the code's dispatch condition
`method_name.compare("getPlatformVersion") == 0` holds exactly when the
method name equals `"getPlatformVersion"`: matching is exact and
case-sensitive. -/
theorem C9_dispatch_is_equality (s : String) :
    dispatchCondition s ↔ dispatchConditionSpec s :=
  cppCompare_eq_zero_iff s "getPlatformVersion"

/-- C10: the constructor and destructor have empty bodies: constructing a
plugin instance leaves the ambient program state unchanged, and
destroying the constructed instance also leaves it unchanged. -/
theorem C10_ctor_dtor_pure {α : Type} (σ : α) :
    (FlutterShopScriptPlugin.construct σ).1 = σ ∧
    FlutterShopScriptPlugin.destruct
      (FlutterShopScriptPlugin.construct σ).1
      (FlutterShopScriptPlugin.construct σ).2 = σ :=
  ⟨rfl, rfl⟩

end FlutterShopscript
